import Mathlib

/-!
Verification of the trustar-python client against its specification.

The development shallowly embeds the parts of the code the claims are
about: the generic pagination engine (`Page`, page generator, item
generator), the configuration handling of `TruStar.__init__`, the token
retrieval of `TruStar.__get_token`, the page-generator constructors, and
`ModelBase.to_dict`.

The pagination engine itself (the repository's `page.py`) is not among
the provided source files; only its callers in `trustar.py` are.  Its
definitions below are therefore modelled from the specification's words,
as marked in their doc comments.  Python's lazy generators are embedded
as fuel-indexed functions that return the finite trace of a generator:
the list of yielded elements together with how the run ended (clean
termination, a propagated fetch error, or fuel exhaustion standing in
for a still-unfinished lazy sequence).
-/

/-- Modelled from the spec: `Page<T>` (spec §3), the missing `page.py`
data class.  `items` is the server-returned ordered sequence, plus the
pagination metadata fields.  `explicitHasMore` is the spec's optional
explicit "has more" flag carried by the source response; `none` means
the source provided no flag. -/
structure Page (T : Type) where
  items : List T
  pageNumber : Nat
  pageSize : Nat
  totalElements : Nat
  explicitHasMore : Option Bool
deriving Repr, DecidableEq

/-- Modelled from the spec: `hasNextPage()` (spec §3/§4.1), from the
missing `page.py`.  Derived as `(pageNumber + 1) * pageSize <
totalElements` unless the source provides an explicit flag, in which
case the explicit flag wins. -/
def Page.hasNextPage {T : Type} (p : Page T) : Bool :=
  match p.explicitHasMore with
  | some b => b
  | none => decide ((p.pageNumber + 1) * p.pageSize < p.totalElements)

/-- How a (finite trace of a) generator run ended: clean termination,
a propagated fetch error, or `pending` when the trace was cut off by
the fuel bound (the lazy sequence had not yet finished). -/
inductive GenOutcome (E : Type) where
  | done
  | failed (e : E)
  | pending
deriving Repr, DecidableEq

/-- Modelled from the spec: the page-fetching loop of
`Page.get_page_generator` (spec §4.2), from the missing `page.py`.
`fetch` is the fetch function already bound to the fixed page size.
Starting at page `n`, each step fetches the current page, yields it, and
continues with the next page number exactly when the fetched page's
`hasNextPage()` is true; a fetch error ends the run with that error.
`fuel` bounds how many pulls of the lazy sequence the trace records. -/
def pageGenAux {T E : Type} (fetch : Nat → Except E (Page T)) :
    Nat → Nat → List (Page T) × GenOutcome E
  | _, 0 => ([], GenOutcome.pending)
  | n, fuel + 1 =>
    match fetch n with
    | Except.error e => ([], GenOutcome.failed e)
    | Except.ok p =>
      if p.hasNextPage then
        let rest := pageGenAux fetch (n + 1) fuel
        (p :: rest.1, rest.2)
      else
        ([p], GenOutcome.done)

/-- Modelled from the spec: `Page.get_page_generator(func, start_page,
page_size)` (spec §4.2), from the missing `page.py`.  The fetch function
is invoked as `func(page_number, page_size)` with the fixed `page_size`;
the first element is the page at `start_page`. -/
def Page.get_page_generator {T E : Type} (fetchFn : Nat → Option Nat → Except E (Page T))
    (start_page : Nat) (page_size : Option Nat) (fuel : Nat) :
    List (Page T) × GenOutcome E :=
  pageGenAux (fun page_number => fetchFn page_number page_size) start_page fuel

/-- Modelled from the spec: `Page.get_generator(page_generator)` (spec
§4.3), from the missing `page.py`.  Flattens the page trace into the
item trace: each yielded page's items in order, page after page; the run
ends the way the page run ended. -/
def Page.get_generator {T E : Type} (pg : List (Page T) × GenOutcome E) :
    List T × GenOutcome E :=
  ((pg.1.map Page.items).flatten, pg.2)

/-- A synthetic dataset's page `n` for page size `S`: the spec's test
model of a server holding `data` split into consecutive chunks of `S`
(spec §8), with the total element count reported on every page and no
explicit has-more flag. -/
def datasetPage {T : Type} (data : List T) (S n : Nat) : Page T :=
  { items := (data.drop (n * S)).take S
    pageNumber := n
    pageSize := S
    totalElements := data.length
    explicitHasMore := none }

/-- The fetch function over a synthetic dataset: always succeeds and
returns `datasetPage`. -/
def datasetFetch {T : Type} (data : List T) (S : Nat) :
    Nat → Option Nat → Except String (Page T) :=
  fun n _ => Except.ok (datasetPage data S n)

/-! ### Page-generator constructors (`trustar.py`, lines 577-630)

Each endpoint's `get_*_page_generator(self, start_page=0, page_size=None,
**kwargs)` builds a closure `func(page_number, page_size)` over the
endpoint method and hands it, with `start_page` and `page_size`, to
`Page.get_page_generator`.  The endpoint method (with its `**kwargs`
already bound) is embedded as an abstract function from the page number
and page size it is called with to the page it fetches.  Python default
parameter values are embedded as separate named constants. -/

/-- Default of the `start_page` parameter of `get_report_page_generator`
(`trustar.py` line 577: `start_page=0`). -/
def get_report_page_generator_default_start_page : Nat := 0

/-- Default of the `page_size` parameter of `get_report_page_generator`
(`trustar.py` line 577: `page_size=None`). -/
def get_report_page_generator_default_page_size : Option Nat := none

/-- `TruStar.get_report_page_generator` (`trustar.py` lines 577-588):
wraps `get_reports` in a closure and passes `start_page` and `page_size`
to `Page.get_page_generator`. -/
def get_report_page_generator {T E : Type} (get_reports : Nat → Option Nat → Except E (Page T))
    (start_page : Nat) (page_size : Option Nat) (fuel : Nat) :
    List (Page T) × GenOutcome E :=
  Page.get_page_generator (fun page_number size => get_reports page_number size)
    start_page page_size fuel

/-- Default of the `start_page` parameter of
`get_community_trends_page_generator` (`trustar.py` line 598). -/
def get_community_trends_page_generator_default_start_page : Nat := 0

/-- Default of the `page_size` parameter of
`get_community_trends_page_generator` (`trustar.py` line 598). -/
def get_community_trends_page_generator_default_page_size : Option Nat := none

/-- `TruStar.get_community_trends_page_generator` (`trustar.py` lines
598-609): wraps `get_community_trends` in a closure and passes
`start_page` and `page_size` to `Page.get_page_generator`. -/
def get_community_trends_page_generator {T E : Type}
    (get_community_trends : Nat → Option Nat → Except E (Page T))
    (start_page : Nat) (page_size : Option Nat) (fuel : Nat) :
    List (Page T) × GenOutcome E :=
  Page.get_page_generator (fun page_number size => get_community_trends page_number size)
    start_page page_size fuel

/-- Default of the `start_page` parameter of
`get_related_indicators_page_generator` (`trustar.py` line 619). -/
def get_related_indicators_page_generator_default_start_page : Nat := 0

/-- Default of the `page_size` parameter of
`get_related_indicators_page_generator` (`trustar.py` line 619). -/
def get_related_indicators_page_generator_default_page_size : Option Nat := none

/-- `TruStar.get_related_indicators_page_generator` (`trustar.py` lines
619-630): wraps `get_related_indicators` in a closure and passes
`start_page` and `page_size` to `Page.get_page_generator`. -/
def get_related_indicators_page_generator {T E : Type}
    (get_related_indicators : Nat → Option Nat → Except E (Page T))
    (start_page : Nat) (page_size : Option Nat) (fuel : Nat) :
    List (Page T) × GenOutcome E :=
  Page.get_page_generator (fun page_number size => get_related_indicators page_number size)
    start_page page_size fuel

/-! ### Token retrieval (`trustar.py`, lines 138-153)

`TruStar.__get_token` posts to the auth endpoint and inspects the
response.  The response is embedded by the two fields the function
reads: its HTTP status code and the `access_token` field of its JSON
body. -/

/-- The error message `__get_token` builds (`trustar.py` lines 149-151):
`"{} {} Error: {}".format(status, "Client" if status < 500 else
"Server", "unable to get token")`. -/
def token_error_message (status_code : Nat) : String :=
  toString status_code ++ " "
    ++ (if status_code < 500 then "Client" else "Server")
    ++ " Error: " ++ "unable to get token"

/-- `TruStar.__get_token` (`trustar.py` lines 138-153) applied to the
response it receives: raises an `HTTPError` when
`400 <= response.status_code < 600`, otherwise returns
`response.json()["access_token"]`. -/
def get_token (status_code : Nat) (access_token : String) : Except String String :=
  if 400 ≤ status_code ∧ status_code < 600 then
    Except.error (token_error_message status_code)
  else
    Except.ok access_token

/-! ### Configuration handling (`trustar.py`, lines 38-118)

Python configuration values are embedded as `PyVal`; a Python `dict` is
an association list with distinct keys in insertion order (lookup finds
the first matching key; assigning a fresh key appends). -/

/-- A Python value as it occurs in a config dictionary: `None`, a
string, a boolean, or a list of strings. -/
inductive PyVal where
  | none
  | str (s : String)
  | bool (b : Bool)
  | list (l : List String)
deriving Repr, DecidableEq

/-- Python `==` between two such values: values of different kinds
compare unequal (in particular `None == "auth"` is `False`). -/
def pyEq : PyVal → PyVal → Bool
  | PyVal.none, PyVal.none => true
  | PyVal.str a, PyVal.str b => a == b
  | PyVal.bool a, PyVal.bool b => a == b
  | PyVal.list a, PyVal.list b => a == b
  | _, _ => false

/-- Python `is None`. -/
def pyIsNone : PyVal → Bool
  | PyVal.none => true
  | _ => false

/-- Python `v in l` for a list `l` of strings: membership via `==`. -/
def pyInList (v : PyVal) (l : List String) : Bool :=
  l.any fun s => pyEq v (PyVal.str s)

/-- Python `v in d` for a dict `d` with string keys: membership among
the keys via `==`. -/
def pyInDict (v : PyVal) (d : List (String × PyVal)) : Bool :=
  d.any fun kv => pyEq v (PyVal.str kv.1)

/-- Python `k in d` for a string `k` and dict `d` with string keys. -/
def containsKey (d : List (String × PyVal)) (k : String) : Bool :=
  d.any fun kv => kv.1 == k

/-- Python `d[k]` as an optional lookup (first matching key). -/
def dictGet (d : List (String × PyVal)) (k : String) : Option PyVal :=
  (d.find? fun kv => kv.1 == k).map fun kv => kv.2

/-- Python `d[k] = v`: overwrite in place when the key exists, else
append. -/
def dictSet (d : List (String × PyVal)) (k : String) (v : PyVal) :
    List (String × PyVal) :=
  if containsKey d k then
    d.map fun kv => if kv.1 == k then (k, v) else kv
  else
    d ++ [(k, v)]

/-- `CLIENT_VERSION` (`trustar.py` line 30). -/
def CLIENT_VERSION : String := "0.3.0"

/-- `TruStar.REQUIRED_KEYS` (`trustar.py` line 39). -/
def REQUIRED_KEYS : List String := ["auth", "base", "api_key", "api_secret"]

/-- `TruStar.REMAPPED_KEYS` (`trustar.py` lines 42-47), in insertion
order. -/
def REMAPPED_KEYS : List (String × String) :=
  [("auth_endpoint", "auth"), ("api_endpoint", "base"),
   ("user_api_key", "api_key"), ("user_api_secret", "api_secret")]

/-- `TruStar.DEFAULTS` (`trustar.py` lines 50-55). -/
def DEFAULTS : List (String × PyVal) :=
  [("client_type", PyVal.str "PYTHON_SDK"),
   ("client_version", PyVal.str CLIENT_VERSION),
   ("client_metatag", PyVal.none),
   ("verify", PyVal.bool true)]

/-- One iteration of the remapping loop of `TruStar.__init__`
(`trustar.py` lines 107-109): `if k in config and v not in config:
config[v] = config[k]`. -/
def remap_step (config : List (String × PyVal)) (kv : String × String) :
    List (String × PyVal) :=
  if containsKey config kv.1 && !containsKey config kv.2 then
    match dictGet config kv.1 with
    | some x => dictSet config kv.2 x
    | none => config
  else
    config

/-- The key-remapping loop of `TruStar.__init__` (`trustar.py` lines
106-109): `for k, v in self.REMAPPED_KEYS.items(): ...`. -/
def remap_config_keys (config : List (String × PyVal)) : List (String × PyVal) :=
  REMAPPED_KEYS.foldl remap_step config

/-- The required-key/defaults loop of `TruStar.__init__` (`trustar.py`
lines 111-118), iterating over the items of `config` while threading the
dictionary: `for key, val in config.items(): if val is None: if val in
TruStar.REQUIRED_KEYS: raise ... elif val in TruStar.DEFAULTS:
config[key] = TruStar.DEFAULTS[key]` (a failed `DEFAULTS[key]` index
would raise a `KeyError`). -/
def set_properties_loop :
    List (String × PyVal) → List (String × PyVal) →
    Except String (List (String × PyVal))
  | [], config => Except.ok config
  | (key, val) :: rest, config =>
    if pyIsNone val then
      if pyInList val REQUIRED_KEYS then
        Except.error ("Missing config value for " ++ key)
      else if pyInDict val DEFAULTS then
        match dictGet DEFAULTS key with
        | some dv => set_properties_loop rest (dictSet config key dv)
        | none => Except.error ("KeyError: " ++ key)
      else
        set_properties_loop rest config
    else
      set_properties_loop rest config

/-- The whole required-key/defaults loop applied to a config dict. -/
def set_properties (config : List (String × PyVal)) :
    Except String (List (String × PyVal)) :=
  set_properties_loop config config

/-! ### `ModelBase.to_dict` (`models/base.py`, lines 16-27) -/

/-- The Python exception `ModelBase.to_dict` can raise. -/
inductive PyError where
  | notImplementedError
deriving Repr, DecidableEq

/-- `ModelBase.to_dict(self, remove_nones=False)` (`models/base.py`
lines 16-27).  `self_to_dict` embeds the dynamically dispatched call
`self.to_dict()` (i.e. with `remove_nones=False`): the dict the
subclass's override returns, or `NotImplementedError` when it raises.
With `remove_nones=True` the method filters the `None`-valued entries
out of `self.to_dict()`; with `remove_nones=False` it raises
`NotImplementedError`. -/
def ModelBase.to_dict (self_to_dict : Except PyError (List (String × PyVal)))
    (remove_nones : Bool) : Except PyError (List (String × PyVal)) :=
  if remove_nones then
    match self_to_dict with
    | Except.ok d => Except.ok (d.filter fun kv => !pyIsNone kv.2)
    | Except.error e => Except.error e
  else
    Except.error PyError.notImplementedError

/-- `to_dict` on a class that does not override it: the dispatched
`self.to_dict()` is `ModelBase.to_dict` itself at its default
`remove_nones=False`, which raises `NotImplementedError`; so
`self_to_dict` is `Except.error PyError.notImplementedError`. -/
def ModelBase.to_dict_unoverridden (remove_nones : Bool) :
    Except PyError (List (String × PyVal)) :=
  ModelBase.to_dict (Except.error PyError.notImplementedError) remove_nones

/-! ## Helper lemmas -/

/-- `pyIsNone` characterises the `PyVal.none` constructor. -/
theorem pyIsNone_iff (v : PyVal) : pyIsNone v = true ↔ v = PyVal.none := by
  cases v <;> simp [pyIsNone]

/-- The required-key/defaults loop is the identity and never raises,
whatever items it walks over and whatever dictionary it threads: the
`None` value is never a member of `REQUIRED_KEYS` (a list of strings)
nor a key of `DEFAULTS` (string keys), so both branches are dead. -/
theorem set_properties_loop_id (items config : List (String × PyVal)) :
    set_properties_loop items config = Except.ok config := by
  induction items generalizing config with
  | nil => rfl
  | cons hd tl ih =>
    obtain ⟨key, val⟩ := hd
    by_cases h : pyIsNone val = true
    · have hv : val = PyVal.none := (pyIsNone_iff val).mp h
      subst hv
      simp only [set_properties_loop, pyIsNone, if_pos]
      have h1 : pyInList PyVal.none REQUIRED_KEYS = false := by decide
      have h2 : pyInDict PyVal.none DEFAULTS = false := by decide
      rw [h1, h2]
      simp only [Bool.false_eq_true, if_false]
      exact ih config
    · simp only [set_properties_loop, h, Bool.false_eq_true, if_false]
      exact ih config

/-- On every `PyVal`, the negated `pyIsNone` test picks out exactly the
non-`None` values. -/
theorem not_pyIsNone_iff (v : PyVal) : (!pyIsNone v) = true ↔ v ≠ PyVal.none := by
  cases v <;> simp [pyIsNone]

/-! ## Claim theorems -/

/-- Claim C4: `hasNextPage()` is true exactly when
`(pageNumber + 1) * pageSize < totalElements`, unless the response
carries an explicit has-more flag, in which case that flag's value is
returned instead (the flag wins when both are present). -/
theorem hasNextPage_flag_wins (T : Type) (p : Page T) :
    (p.explicitHasMore = none →
      (p.hasNextPage = true ↔ (p.pageNumber + 1) * p.pageSize < p.totalElements))
    ∧ ∀ b, p.explicitHasMore = some b → p.hasNextPage = b := by
  constructor
  · intro h
    simp [Page.hasNextPage, h]
  · intro b h
    simp [Page.hasNextPage, h]

/-- Witness for C4 at two concrete pages: one without an explicit flag
(derived rule), one whose explicit `false` flag overrides a total count
that would say more pages exist. -/
theorem hasNextPage_flag_wins_witness :
    (({ items := [1], pageNumber := 0, pageSize := 2, totalElements := 5,
        explicitHasMore := none } : Page Nat).hasNextPage = true ↔ (0 + 1) * 2 < 5)
    ∧ ({ items := [1], pageNumber := 0, pageSize := 2, totalElements := 5,
          explicitHasMore := some false } : Page Nat).hasNextPage = false :=
  ⟨(hasNextPage_flag_wins Nat
      { items := [1], pageNumber := 0, pageSize := 2, totalElements := 5,
        explicitHasMore := none }).1 rfl,
   (hasNextPage_flag_wins Nat
      { items := [1], pageNumber := 0, pageSize := 2, totalElements := 5,
        explicitHasMore := some false }).2 false rfl⟩

/-- Claim C5: for an empty dataset the page generator yields exactly one
page, with empty items and `hasNextPage() = false` — never zero pages —
and the item generator over the same dataset yields zero items. -/
theorem empty_dataset_one_page (T : Type) (S fuel : Nat)
    (hfuel : 1 ≤ fuel) :
    Page.get_page_generator (datasetFetch ([] : List T) S) 0 (some S) fuel
      = ([{ items := [], pageNumber := 0, pageSize := S, totalElements := 0,
            explicitHasMore := none }], GenOutcome.done)
    ∧ ({ items := ([] : List T), pageNumber := 0, pageSize := S, totalElements := 0,
          explicitHasMore := none } : Page T).hasNextPage = false
    ∧ Page.get_generator
        (Page.get_page_generator (datasetFetch ([] : List T) S) 0 (some S) fuel)
      = ([], GenOutcome.done) := by
  obtain ⟨m, rfl⟩ : ∃ m, fuel = m + 1 := ⟨fuel - 1, by omega⟩
  have hpage : datasetPage ([] : List T) S 0
      = { items := [], pageNumber := 0, pageSize := S, totalElements := 0,
          explicitHasMore := none } := by
    simp [datasetPage]
  have hnext : ({ items := ([] : List T), pageNumber := 0, pageSize := S,
                  totalElements := 0, explicitHasMore := none } : Page T).hasNextPage = false := by
    simp [Page.hasNextPage]
  have hgen : Page.get_page_generator (datasetFetch ([] : List T) S) 0 (some S) (m + 1)
      = ([{ items := [], pageNumber := 0, pageSize := S, totalElements := 0,
            explicitHasMore := none }], GenOutcome.done) := by
    simp only [Page.get_page_generator, pageGenAux, datasetFetch, hpage, hnext,
      Bool.false_eq_true, if_false]
  exact ⟨hgen, hnext, by rw [hgen]; rfl⟩

/-- Witness for C5 at `T = Nat`, `S = 3`, `fuel = 2`. -/
theorem empty_dataset_one_page_witness :
    Page.get_page_generator (datasetFetch ([] : List Nat) 3) 0 (some 3) 2
      = ([{ items := [], pageNumber := 0, pageSize := 3, totalElements := 0,
            explicitHasMore := none }], GenOutcome.done)
    ∧ ({ items := ([] : List Nat), pageNumber := 0, pageSize := 3, totalElements := 0,
          explicitHasMore := none } : Page Nat).hasNextPage = false
    ∧ Page.get_generator
        (Page.get_page_generator (datasetFetch ([] : List Nat) 3) 0 (some 3) 2)
      = ([], GenOutcome.done) :=
  empty_dataset_one_page Nat 3 2 (by decide)

/-- Claim C6: all three page-generator constructors default the starting
page to `0` and the page size to `None`, and pass exactly those values
on to the engine when the caller omits them. -/
theorem page_generator_constructors_defaults :
    (get_report_page_generator_default_start_page = 0
      ∧ get_report_page_generator_default_page_size = none
      ∧ get_community_trends_page_generator_default_start_page = 0
      ∧ get_community_trends_page_generator_default_page_size = none
      ∧ get_related_indicators_page_generator_default_start_page = 0
      ∧ get_related_indicators_page_generator_default_page_size = none)
    ∧ ∀ (T E : Type) (f : Nat → Option Nat → Except E (Page T)) (fuel : Nat),
        get_report_page_generator f get_report_page_generator_default_start_page
            get_report_page_generator_default_page_size fuel
          = Page.get_page_generator f 0 none fuel
        ∧ get_community_trends_page_generator f
            get_community_trends_page_generator_default_start_page
            get_community_trends_page_generator_default_page_size fuel
          = Page.get_page_generator f 0 none fuel
        ∧ get_related_indicators_page_generator f
            get_related_indicators_page_generator_default_start_page
            get_related_indicators_page_generator_default_page_size fuel
          = Page.get_page_generator f 0 none fuel :=
  ⟨⟨rfl, rfl, rfl, rfl, rfl, rfl⟩, fun _ _ _ _ => ⟨rfl, rfl, rfl⟩⟩

/-- Counterexample to C7 as stated: the status code 301 is not a 2xx
success status, yet `__get_token` does not raise there — it returns the
token. -/
theorem get_token_counterexample :
    ¬ (200 ≤ 301 ∧ 301 ≤ 299) ∧ get_token 301 "token" = Except.ok "token" :=
  ⟨by decide, rfl⟩

/-- Claim C7 (amended): the token retrieval returns the access token on
success and raises exactly when `400 ≤ status_code < 600`; responses
with status codes outside that range (including non-2xx codes such as
3xx) return the token without raising. -/
theorem get_token_raises_iff_400_599 (status_code : Nat) (token : String) :
    ((400 ≤ status_code ∧ status_code < 600) →
      get_token status_code token = Except.error (token_error_message status_code))
    ∧ (¬ (400 ≤ status_code ∧ status_code < 600) →
      get_token status_code token = Except.ok token) := by
  constructor
  · intro h
    simp only [get_token]
    rw [if_pos h]
  · intro h
    simp only [get_token]
    rw [if_neg h]

/-- Witness for C7 (amended) at status codes 404 and 200. -/
theorem get_token_raises_iff_400_599_witness :
    get_token 404 "t" = Except.error (token_error_message 404)
    ∧ get_token 200 "t" = Except.ok "t" :=
  ⟨(get_token_raises_iff_400_599 404 "t").1 (by decide),
   (get_token_raises_iff_400_599 200 "t").2 (by decide)⟩

/-- Claim C8: for every config dictionary passed through the `config`
parameter, the required-key/defaults loop of `TruStar.__init__` never
raises `Missing config value` and never substitutes a value from
`DEFAULTS` — it tests the `None` value (not the key) for membership in
`REQUIRED_KEYS` and `DEFAULTS`, so both branches are unreachable and the
config comes back unchanged. -/
theorem init_required_defaults_branches_dead (config : List (String × PyVal)) :
    set_properties config = Except.ok config :=
  set_properties_loop_id config config

/-- Claim C10: `to_dict(remove_nones=True)` over a subclass whose
override returns `d` yields exactly the entries of `d` whose values are
not `None` (no keys added, no non-`None` values changed), and on a class
with no override, `to_dict()` / `to_dict(remove_nones=False)` raises
`NotImplementedError`. -/
theorem to_dict_remove_nones_filters (d : List (String × PyVal)) :
    ModelBase.to_dict (Except.ok d) true
      = Except.ok (d.filter fun kv => !pyIsNone kv.2)
    ∧ (∀ k v, (k, v) ∈ d.filter (fun kv => !pyIsNone kv.2) ↔ (k, v) ∈ d ∧ v ≠ PyVal.none)
    ∧ ModelBase.to_dict_unoverridden false = Except.error PyError.notImplementedError := by
  refine ⟨rfl, ?_, rfl⟩
  intro k v
  rw [List.mem_filter]
  exact and_congr_right fun _ => not_pyIsNone_iff v

/-- Over a synthetic dataset with page size `S > 0`, the page run from
page `n` terminates cleanly and its flattened items are exactly the
dataset's suffix from position `n * S`, once the fuel covers the
remaining pages. -/
theorem pageGenAux_dataset (T : Type) (data : List T) (S : Nat) (hS : 0 < S) :
    ∀ fuel n, 1 ≤ fuel → data.length ≤ (n + fuel) * S →
      (pageGenAux (fun m => datasetFetch data S m (some S)) n fuel).2 = GenOutcome.done
      ∧ ((pageGenAux (fun m => datasetFetch data S m (some S)) n fuel).1.map
          Page.items).flatten = data.drop (n * S) := by
  intro fuel
  induction fuel with
  | zero => intro n h; exact absurd h (by omega)
  | succ m ih =>
    intro n _ hlen
    by_cases h : (n + 1) * S < data.length
    · have hm1 : 1 ≤ m := by
        rcases Nat.eq_zero_or_pos m with hm | hm
        · subst hm
          have hlen' : data.length ≤ (n + 1) * S := by
            have : n + (0 + 1) = n + 1 := by omega
            rw [this] at hlen
            exact hlen
          exact absurd (lt_of_lt_of_le h hlen') (lt_irrefl _)
        · exact hm
      have hnext : (datasetPage data S n).hasNextPage = true := by
        simp [datasetPage, Page.hasNextPage, h]
      have ihm := ih (n + 1) hm1 (by
        have : n + 1 + m = n + (m + 1) := by omega
        rw [this]
        exact hlen)
      refine ⟨?_, ?_⟩
      · simp only [pageGenAux, datasetFetch, hnext, if_true]
        exact ihm.1
      · simp only [pageGenAux, datasetFetch, hnext, if_true, List.map_cons,
          List.flatten_cons]
        have ihm2 := ihm.2
        simp only [datasetFetch] at ihm2
        rw [ihm2]
        show (data.drop (n * S)).take S ++ data.drop ((n + 1) * S) = data.drop (n * S)
        have hdd : (n + 1) * S = n * S + S := Nat.succ_mul n S
        rw [hdd, ← List.drop_drop]
        exact List.take_append_drop S (data.drop (n * S))
    · have hle : data.length ≤ n * S + S := by
        rw [← Nat.succ_mul]
        exact Nat.not_lt.mp h
      have hnext : (datasetPage data S n).hasNextPage = false := by
        simp [datasetPage, Page.hasNextPage, h]
      refine ⟨?_, ?_⟩
      · simp only [pageGenAux, datasetFetch, hnext, Bool.false_eq_true, if_false]
      · simp only [pageGenAux, datasetFetch, hnext, Bool.false_eq_true, if_false,
          List.map_cons, List.map_nil, List.flatten_cons, List.flatten_nil,
          List.append_nil]
        show (data.drop (n * S)).take S = data.drop (n * S)
        exact List.take_of_length_le (by rw [List.length_drop]; omega)

/-- Claim C1: over a dataset of `N` items split into pages of size `S`
(`S` need not divide `N`), the item generator wrapping the page
generator yields exactly the `N` items in the server-returned order and
terminates cleanly. -/
theorem itemGenerator_yields_all_items (T : Type) (data : List T) (S fuel : Nat)
    (hS : 0 < S) (hfuel1 : 1 ≤ fuel) (hfuel2 : data.length ≤ fuel * S) :
    Page.get_generator (Page.get_page_generator (datasetFetch data S) 0 (some S) fuel)
      = (data, GenOutcome.done) := by
  have h := pageGenAux_dataset T data S hS fuel 0 hfuel1 (by
    have : (0 + fuel) * S = fuel * S := by rw [Nat.zero_add]
    rw [this]
    exact hfuel2)
  have e1 : Page.get_page_generator (datasetFetch data S) 0 (some S) fuel
      = pageGenAux (fun m => datasetFetch data S m (some S)) 0 fuel := rfl
  unfold Page.get_generator
  rw [e1, Prod.mk.injEq]
  refine ⟨?_, h.1⟩
  have h2 := h.2
  rw [Nat.zero_mul, List.drop_zero] at h2
  exact h2

/-- Witness for C1: 7 items, page size 3 (3 does not divide 7). -/
theorem itemGenerator_yields_all_items_witness :
    Page.get_generator
        (Page.get_page_generator (datasetFetch [0, 1, 2, 3, 4, 5, 6] 3) 0 (some 3) 3)
      = ([0, 1, 2, 3, 4, 5, 6], GenOutcome.done) :=
  itemGenerator_yields_all_items Nat [0, 1, 2, 3, 4, 5, 6] 3 3 (by decide) (by decide)
    (by decide)

/-- When the fetch succeeds on pages `n..k`, pages `n..k-1` report more
data, and page `k` is the first to report no more data, the page run
from page `n` yields exactly the pages `n..k` and terminates cleanly,
given fuel for those pulls. -/
theorem pageGenAux_run (T E : Type) (f : Nat → Except E (Page T))
    (pages : Nat → Page T) (k : Nat) :
    ∀ fuel n, n ≤ k →
      (∀ m, n ≤ m → m ≤ k → f m = Except.ok (pages m)) →
      (∀ m, n ≤ m → m < k → (pages m).hasNextPage = true) →
      (pages k).hasNextPage = false →
      k + 1 ≤ n + fuel →
      pageGenAux f n fuel
        = ((List.range (k + 1 - n)).map fun i => pages (n + i), GenOutcome.done) := by
  intro fuel
  induction fuel with
  | zero => intro n hnk _ _ _ hf; exact absurd hf (by omega)
  | succ m ih =>
    intro n hnk hok hmore hlast hf
    have hfn : f n = Except.ok (pages n) := hok n le_rfl hnk
    by_cases hek : n = k
    · subst hek
      simp only [pageGenAux, hfn, hlast, Bool.false_eq_true, if_false]
      have h1 : n + 1 - n = 1 := by omega
      rw [h1]
      simp [List.range_succ]
    · have hlt : n < k := lt_of_le_of_ne hnk hek
      have hnext : (pages n).hasNextPage = true := hmore n le_rfl hlt
      simp only [pageGenAux, hfn, hnext, if_true]
      have ihn := ih (n + 1) hlt (fun m h1 h2 => hok m (by omega) h2)
        (fun m h1 h2 => hmore m (by omega) h2) hlast (by omega)
      rw [ihn, Prod.mk.injEq]
      refine ⟨?_, rfl⟩
      have hd : k + 1 - n = (k + 1 - (n + 1)) + 1 := by omega
      rw [hd, List.range_succ_eq_map, List.map_cons, List.map_map, Nat.add_zero]
      refine congrArg (List.cons (pages n)) ?_
      refine List.map_congr_left ?_
      intro a _
      show pages (n + 1 + a) = pages (n + Nat.succ a)
      refine congrArg pages (by omega)

/-- Claim C2: for every fetch function and start page, once some page
`k ≥ n` is the first whose `hasNextPage()` is false (all fetches up to
it succeeding), the page sequence is exactly the pages `n..k` — it ends
immediately after the first no-more page — and the run is unchanged
under any alteration of the fetch function beyond page `k`: the fetch
function is never invoked with a page number past the first page that
reports no more data. -/
theorem pageGenerator_stops_after_first_no_more_page
    (T E : Type) (fetchFn : Nat → Option Nat → Except E (Page T))
    (page_size : Option Nat) (pages : Nat → Page T) (n k fuel : Nat)
    (hnk : n ≤ k)
    (hok : ∀ m, n ≤ m → m ≤ k → fetchFn m page_size = Except.ok (pages m))
    (hmore : ∀ m, n ≤ m → m < k → (pages m).hasNextPage = true)
    (hlast : (pages k).hasNextPage = false)
    (hfuel : k + 1 ≤ n + fuel) :
    Page.get_page_generator fetchFn n page_size fuel
      = ((List.range (k + 1 - n)).map fun i => pages (n + i), GenOutcome.done)
    ∧ ∀ fetchFn2 : Nat → Option Nat → Except E (Page T),
        (∀ m, n ≤ m → m ≤ k → fetchFn2 m page_size = fetchFn m page_size) →
        Page.get_page_generator fetchFn2 n page_size fuel
          = Page.get_page_generator fetchFn n page_size fuel := by
  have h1 : Page.get_page_generator fetchFn n page_size fuel
      = ((List.range (k + 1 - n)).map fun i => pages (n + i), GenOutcome.done) :=
    pageGenAux_run T E (fun m => fetchFn m page_size) pages k fuel n hnk hok hmore
      hlast hfuel
  refine ⟨h1, ?_⟩
  intro fetchFn2 hagree
  have h2 : Page.get_page_generator fetchFn2 n page_size fuel
      = ((List.range (k + 1 - n)).map fun i => pages (n + i), GenOutcome.done) :=
    pageGenAux_run T E (fun m => fetchFn2 m page_size) pages k fuel n hnk
      (fun m hm1 hm2 => by
        show fetchFn2 m page_size = Except.ok (pages m)
        rw [hagree m hm1 hm2]
        exact hok m hm1 hm2)
      hmore hlast hfuel
  rw [h1, h2]

/-- Witness for C2 over the 7-item dataset with page size 3, whose first
no-more page is page 2. -/
theorem pageGenerator_stops_witness :
    Page.get_page_generator (datasetFetch [0, 1, 2, 3, 4, 5, 6] 3) 0 (some 3) 3
      = ((List.range (2 + 1 - 0)).map fun i => datasetPage [0, 1, 2, 3, 4, 5, 6] 3 (0 + i),
         GenOutcome.done) :=
  (pageGenerator_stops_after_first_no_more_page Nat String
    (datasetFetch [0, 1, 2, 3, 4, 5, 6] 3) (some 3)
    (datasetPage [0, 1, 2, 3, 4, 5, 6] 3) 0 2 3
    (by decide)
    (fun m _ _ => rfl)
    (fun m _ hm => by interval_cases m <;> decide)
    (by decide)
    (by decide)).1

/-- When the fetch succeeds on pages `n..k-1`, those pages all report
more data, and the fetch fails on page `k` with error `e`, the page run
from page `n` yields exactly the pages `n..k-1` and then ends with that
same error. -/
theorem pageGenAux_fail (T E : Type) (f : Nat → Except E (Page T))
    (pages : Nat → Page T) (k : Nat) (e : E) :
    ∀ fuel n, n ≤ k →
      (∀ m, n ≤ m → m < k → f m = Except.ok (pages m)) →
      (∀ m, n ≤ m → m < k → (pages m).hasNextPage = true) →
      f k = Except.error e →
      k + 1 ≤ n + fuel →
      pageGenAux f n fuel
        = ((List.range (k - n)).map fun i => pages (n + i), GenOutcome.failed e) := by
  intro fuel
  induction fuel with
  | zero => intro n hnk _ _ _ hf; exact absurd hf (by omega)
  | succ m ih =>
    intro n hnk hok hmore herr hf
    by_cases hek : n = k
    · subst hek
      simp only [pageGenAux, herr, Nat.sub_self, List.range_zero, List.map_nil]
    · have hlt : n < k := lt_of_le_of_ne hnk hek
      have hfn : f n = Except.ok (pages n) := hok n le_rfl hlt
      have hnext : (pages n).hasNextPage = true := hmore n le_rfl hlt
      simp only [pageGenAux, hfn, hnext, if_true]
      have ihn := ih (n + 1) hlt (fun m h1 h2 => hok m (by omega) h2)
        (fun m h1 h2 => hmore m (by omega) h2) herr (by omega)
      rw [ihn, Prod.mk.injEq]
      refine ⟨?_, rfl⟩
      have hd : k - n = (k - (n + 1)) + 1 := by omega
      rw [hd, List.range_succ_eq_map, List.map_cons, List.map_map, Nat.add_zero]
      refine congrArg (List.cons (pages n)) ?_
      refine List.map_congr_left ?_
      intro a _
      show pages (n + 1 + a) = pages (n + Nat.succ a)
      refine congrArg pages (by omega)

/-- Claim C3: when the fetch function fails on page `k ≥ n` (pages
`n..k-1` having succeeded and reported more data), the page run from
page `n` yields exactly the pages before `k` and then fails with that
same error — no retry, no suppression; in the trace embedding nothing
follows the failure, so the generator is not resumed. -/
theorem pageGenerator_propagates_fetch_error
    (T E : Type) (fetchFn : Nat → Option Nat → Except E (Page T))
    (page_size : Option Nat) (pages : Nat → Page T) (e : E) (n k fuel : Nat)
    (hnk : n ≤ k)
    (hok : ∀ m, n ≤ m → m < k → fetchFn m page_size = Except.ok (pages m))
    (hmore : ∀ m, n ≤ m → m < k → (pages m).hasNextPage = true)
    (herr : fetchFn k page_size = Except.error e)
    (hfuel : k + 1 ≤ n + fuel) :
    Page.get_page_generator fetchFn n page_size fuel
      = ((List.range (k - n)).map fun i => pages (n + i), GenOutcome.failed e) :=
  pageGenAux_fail T E (fun m => fetchFn m page_size) pages k e fuel n hnk hok hmore
    herr hfuel

/-- Witness for C3: pages 0 and 1 of the 7-item dataset succeed, the
fetch of page 2 fails with a network error. -/
theorem pageGenerator_propagates_fetch_error_witness :
    Page.get_page_generator
        (fun m ps => if m < 2 then datasetFetch [0, 1, 2, 3, 4, 5, 6] 3 m ps
          else Except.error "network error") 0 (some 3) 3
      = ((List.range (2 - 0)).map fun i => datasetPage [0, 1, 2, 3, 4, 5, 6] 3 (0 + i),
         GenOutcome.failed "network error") :=
  pageGenerator_propagates_fetch_error Nat String
    (fun m ps => if m < 2 then datasetFetch [0, 1, 2, 3, 4, 5, 6] 3 m ps
      else Except.error "network error") (some 3)
    (datasetPage [0, 1, 2, 3, 4, 5, 6] 3) "network error" 0 2 3
    (by decide)
    (fun m _ hm => by interval_cases m <;> rfl)
    (fun m _ hm => by interval_cases m <;> decide)
    rfl
    (by decide)

/-- Appending a binding for a different key does not change a lookup. -/
theorem dictGet_append_one_ne (d : List (String × PyVal)) (c w : String) (x : PyVal)
    (hw : w ≠ c) : dictGet (d ++ [(c, x)]) w = dictGet d w := by
  simp only [dictGet, List.find?_append]
  have h1 : List.find? (fun kv => kv.1 == w) [(c, x)] = none := by
    simp [List.find?, beq_eq_false_iff_ne.mpr (Ne.symm hw)]
  rw [h1, Option.or_none]

/-- Appending a binding for a key that was absent makes lookups of that
key find the appended value. -/
theorem dictGet_append_one_self (d : List (String × PyVal)) (c : String) (x : PyVal)
    (hc : containsKey d c = false) : dictGet (d ++ [(c, x)]) c = some x := by
  have h0 : List.find? (fun kv => kv.1 == c) d = none := by
    rw [List.find?_eq_none]
    intro kv hkv
    have := (List.any_eq_false.mp hc) kv hkv
    simpa using this
  simp only [dictGet, List.find?_append, h0, Option.none_or]
  simp [List.find?]

/-- Appending a binding for a different key does not change key
membership. -/
theorem containsKey_append_one (d : List (String × PyVal)) (c w : String) (x : PyVal)
    (hw : w ≠ c) : containsKey (d ++ [(c, x)]) w = containsKey d w := by
  simp only [containsKey, List.any_append, List.any_cons, List.any_nil, Bool.or_false]
  rw [show ((c, x).1 == w) = false from beq_eq_false_iff_ne.mpr (Ne.symm hw),
    Bool.or_false]

/-- A key that is present has a lookup value. -/
theorem dictGet_isSome_of_containsKey (d : List (String × PyVal)) (k : String)
    (h : containsKey d k = true) : ∃ x, dictGet d k = some x := by
  have h1 : (List.find? (fun kv => kv.1 == k) d).isSome = true := by
    rw [List.find?_isSome]
    exact List.any_eq_true.mp h
  obtain ⟨kv, hkv⟩ := Option.isSome_iff_exists.mp h1
  exact ⟨kv.2, by simp [dictGet, hkv]⟩

/-- A remap iteration whose canonical key differs from `w` does not
change the lookup of `w`. -/
theorem remap_step_dictGet_ne (cfg : List (String × PyVal)) (p : String × String)
    (w : String) (hw : w ≠ p.2) :
    dictGet (remap_step cfg p) w = dictGet cfg w := by
  unfold remap_step
  by_cases hg : (containsKey cfg p.1 && !containsKey cfg p.2) = true
  · rw [if_pos hg]
    cases hx : dictGet cfg p.1 with
    | none => rfl
    | some x =>
      have hc2 : containsKey cfg p.2 = false := by
        simp only [Bool.and_eq_true, Bool.not_eq_true'] at hg
        exact hg.2
      show dictGet (dictSet cfg p.2 x) w = dictGet cfg w
      unfold dictSet
      rw [hc2]
      simp only [Bool.false_eq_true, if_false]
      exact dictGet_append_one_ne cfg p.2 w x hw
  · rw [if_neg hg]

/-- A remap iteration whose canonical key differs from `w` does not
change the membership of `w`. -/
theorem remap_step_containsKey_ne (cfg : List (String × PyVal)) (p : String × String)
    (w : String) (hw : w ≠ p.2) :
    containsKey (remap_step cfg p) w = containsKey cfg w := by
  unfold remap_step
  by_cases hg : (containsKey cfg p.1 && !containsKey cfg p.2) = true
  · rw [if_pos hg]
    cases hx : dictGet cfg p.1 with
    | none => rfl
    | some x =>
      have hc2 : containsKey cfg p.2 = false := by
        simp only [Bool.and_eq_true, Bool.not_eq_true'] at hg
        exact hg.2
      show containsKey (dictSet cfg p.2 x) w = containsKey cfg w
      unfold dictSet
      rw [hc2]
      simp only [Bool.false_eq_true, if_false]
      exact containsKey_append_one cfg p.2 w x hw
  · rw [if_neg hg]

/-- A remap iteration whose canonical key is already present leaves the
config untouched. -/
theorem remap_step_of_containsKey (cfg : List (String × PyVal)) (p : String × String)
    (h : containsKey cfg p.2 = true) : remap_step cfg p = cfg := by
  unfold remap_step
  rw [h]
  simp

/-- A remap iteration with the remapped key present and the canonical
key absent copies the remapped key's value to the canonical key. -/
theorem remap_step_dictGet_copy (cfg : List (String × PyVal)) (p : String × String)
    (h1 : containsKey cfg p.1 = true) (h2 : containsKey cfg p.2 = false) :
    dictGet (remap_step cfg p) p.2 = dictGet cfg p.1 := by
  obtain ⟨x, hx⟩ := dictGet_isSome_of_containsKey cfg p.1 h1
  unfold remap_step
  rw [h1, h2, hx]
  show dictGet (dictSet cfg p.2 x) p.2 = some x
  unfold dictSet
  rw [h2]
  simp only [Bool.false_eq_true, if_false]
  exact dictGet_append_one_self cfg p.2 x h2

/-- Claim C9: for every config dictionary containing a remapped key
`k` (e.g. `auth_endpoint`) with canonical key `v` (e.g. `auth`), the
remapping loop of `TruStar.__init__` leaves the canonical key's value
unchanged when both keys are present, and copies the remapped key's
value to the canonical key exactly when the canonical key is absent. -/
theorem init_remap_canonical_wins (config : List (String × PyVal)) (k v : String)
    (hmem : (k, v) ∈ REMAPPED_KEYS) (hk : containsKey config k = true) :
    (containsKey config v = true →
      dictGet (remap_config_keys config) v = dictGet config v)
    ∧ (containsKey config v = false →
      dictGet (remap_config_keys config) v = dictGet config k) := by
  have unfoldr : ∀ cfg : List (String × PyVal), remap_config_keys cfg
      = remap_step (remap_step (remap_step (remap_step cfg ("auth_endpoint", "auth"))
          ("api_endpoint", "base")) ("user_api_key", "api_key"))
          ("user_api_secret", "api_secret") := fun cfg => rfl
  simp only [REMAPPED_KEYS, List.mem_cons, List.not_mem_nil, or_false] at hmem
  rcases hmem with h | h | h | h <;> injection h with h1 h2 <;> subst h1 <;> subst h2
  · -- ("auth_endpoint", "auth")
    constructor
    · intro hv
      rw [unfoldr, remap_step_dictGet_ne _ _ _ (by decide),
        remap_step_dictGet_ne _ _ _ (by decide),
        remap_step_dictGet_ne _ _ _ (by decide),
        remap_step_of_containsKey _ _ hv]
    · intro hv
      rw [unfoldr, remap_step_dictGet_ne _ _ _ (by decide),
        remap_step_dictGet_ne _ _ _ (by decide),
        remap_step_dictGet_ne _ _ _ (by decide)]
      exact remap_step_dictGet_copy config ("auth_endpoint", "auth") hk hv
  · -- ("api_endpoint", "base")
    constructor
    · intro hv
      rw [unfoldr, remap_step_dictGet_ne _ _ _ (by decide),
        remap_step_dictGet_ne _ _ _ (by decide)]
      have hc : containsKey (remap_step config ("auth_endpoint", "auth")) "base" = true := by
        rw [remap_step_containsKey_ne _ _ _ (by decide)]
        exact hv
      rw [remap_step_of_containsKey _ _ hc,
        remap_step_dictGet_ne _ _ _ (by decide)]
    · intro hv
      rw [unfoldr, remap_step_dictGet_ne _ _ _ (by decide),
        remap_step_dictGet_ne _ _ _ (by decide)]
      have hk2 : containsKey (remap_step config ("auth_endpoint", "auth"))
          "api_endpoint" = true := by
        rw [remap_step_containsKey_ne _ _ _ (by decide)]
        exact hk
      have hv2 : containsKey (remap_step config ("auth_endpoint", "auth"))
          "base" = false := by
        rw [remap_step_containsKey_ne _ _ _ (by decide)]
        exact hv
      rw [remap_step_dictGet_copy _ ("api_endpoint", "base") hk2 hv2,
        remap_step_dictGet_ne _ _ _ (by decide)]
  · -- ("user_api_key", "api_key")
    constructor
    · intro hv
      rw [unfoldr, remap_step_dictGet_ne _ _ _ (by decide)]
      have hc : containsKey (remap_step (remap_step config ("auth_endpoint", "auth"))
          ("api_endpoint", "base")) "api_key" = true := by
        rw [remap_step_containsKey_ne _ _ _ (by decide),
          remap_step_containsKey_ne _ _ _ (by decide)]
        exact hv
      rw [remap_step_of_containsKey _ _ hc,
        remap_step_dictGet_ne _ _ _ (by decide),
        remap_step_dictGet_ne _ _ _ (by decide)]
    · intro hv
      rw [unfoldr, remap_step_dictGet_ne _ _ _ (by decide)]
      have hk2 : containsKey (remap_step (remap_step config ("auth_endpoint", "auth"))
          ("api_endpoint", "base")) "user_api_key" = true := by
        rw [remap_step_containsKey_ne _ _ _ (by decide),
          remap_step_containsKey_ne _ _ _ (by decide)]
        exact hk
      have hv2 : containsKey (remap_step (remap_step config ("auth_endpoint", "auth"))
          ("api_endpoint", "base")) "api_key" = false := by
        rw [remap_step_containsKey_ne _ _ _ (by decide),
          remap_step_containsKey_ne _ _ _ (by decide)]
        exact hv
      rw [remap_step_dictGet_copy _ ("user_api_key", "api_key") hk2 hv2,
        remap_step_dictGet_ne _ _ _ (by decide),
        remap_step_dictGet_ne _ _ _ (by decide)]
  · -- ("user_api_secret", "api_secret")
    constructor
    · intro hv
      rw [unfoldr]
      have hc : containsKey (remap_step (remap_step (remap_step config
          ("auth_endpoint", "auth")) ("api_endpoint", "base"))
          ("user_api_key", "api_key")) "api_secret" = true := by
        rw [remap_step_containsKey_ne _ _ _ (by decide),
          remap_step_containsKey_ne _ _ _ (by decide),
          remap_step_containsKey_ne _ _ _ (by decide)]
        exact hv
      rw [remap_step_of_containsKey _ _ hc,
        remap_step_dictGet_ne _ _ _ (by decide),
        remap_step_dictGet_ne _ _ _ (by decide),
        remap_step_dictGet_ne _ _ _ (by decide)]
    · intro hv
      rw [unfoldr]
      have hk2 : containsKey (remap_step (remap_step (remap_step config
          ("auth_endpoint", "auth")) ("api_endpoint", "base"))
          ("user_api_key", "api_key")) "user_api_secret" = true := by
        rw [remap_step_containsKey_ne _ _ _ (by decide),
          remap_step_containsKey_ne _ _ _ (by decide),
          remap_step_containsKey_ne _ _ _ (by decide)]
        exact hk
      have hv2 : containsKey (remap_step (remap_step (remap_step config
          ("auth_endpoint", "auth")) ("api_endpoint", "base"))
          ("user_api_key", "api_key")) "api_secret" = false := by
        rw [remap_step_containsKey_ne _ _ _ (by decide),
          remap_step_containsKey_ne _ _ _ (by decide),
          remap_step_containsKey_ne _ _ _ (by decide)]
        exact hv
      rw [remap_step_dictGet_copy _ ("user_api_secret", "api_secret") hk2 hv2,
        remap_step_dictGet_ne _ _ _ (by decide),
        remap_step_dictGet_ne _ _ _ (by decide),
        remap_step_dictGet_ne _ _ _ (by decide)]

/-- Witness for C9: a config holding both `auth_endpoint` and `auth`
keeps the value under `auth`; one holding only `auth_endpoint` gets its
value copied to `auth`. -/
theorem init_remap_canonical_wins_witness :
    dictGet (remap_config_keys
        [("auth_endpoint", PyVal.str "a"), ("auth", PyVal.str "b")]) "auth"
      = dictGet [("auth_endpoint", PyVal.str "a"), ("auth", PyVal.str "b")] "auth" :=
  (init_remap_canonical_wins
    [("auth_endpoint", PyVal.str "a"), ("auth", PyVal.str "b")]
    "auth_endpoint" "auth" (by decide) (by decide)).1 (by decide)
